import Mathlib

/-!
Shallow embedding of the Nancymon battle core (src/battle, src/data, src/scenes
BattleScene, src/state GameState) and proofs about the frozen claims.

Conventions of the embedding:
* JavaScript numbers are modelled as exact integers (`ℤ`/`ℕ`) and exact
  rationals (`ℚ`); `Math.round x` for nonnegative `x` is `⌊x + 1/2⌋` and
  `Math.floor` is `⌊x⌋`.
* Each call to `Math.random()` is modelled as an explicit rational parameter
  `r` with `0 ≤ r` and `r < 1`; a comparison `Math.random() < c` becomes
  `r < c`.
* Mutation of the scene's fields becomes explicit state passing on
  `BattleCombatants` records.
-/

namespace Nancymon

/-- JS `Math.floor` on an exact rational. -/
def jsFloor (q : ℚ) : ℤ := ⌊q⌋

/-- JS `Math.round` on an exact rational (halfway cases round up, which is
the JS behaviour; all rounded quantities in the battle core are nonnegative). -/
def jsRound (q : ℚ) : ℤ := ⌊q + 1/2⌋

-- ============================================================================
-- BattleStatus.ts
-- ============================================================================

/-- The `StatusType` from BattleStatus.ts. -/
inductive StatusType
  | BLUSHING
  | LAUGHING
  | CONFUSED
  | INSPIRED
  | TIRED
  | DISTRACTED
  | PROUD
deriving DecidableEq, Repr

/-- The `ActiveStatus` from BattleStatus.ts: a status id plus remaining turns. -/
structure ActiveStatus where
  id : StatusType
  duration : ℤ
deriving DecidableEq, Repr

/-- The `createStatus` from BattleStatus.ts; the default duration is 2. -/
def createStatus (t : StatusType) (duration : ℤ := 2) : ActiveStatus :=
  { id := t, duration := duration }

/-- The `BattleScene.hasStatus`, at the level of a status list:
`statuses.some(s => s.id === statusId)`. -/
def hasStatus (l : List ActiveStatus) (t : StatusType) : Bool :=
  l.any (fun s => s.id = t)

/-- The `BattleScene.applyStatus`, at the level of a status list: if an entry of
the given kind exists, the first such entry has its duration reset to 2
(`existing.duration = 2`); otherwise `createStatus` is pushed at the end. -/
def applyStatusList : List ActiveStatus → StatusType → List ActiveStatus
  | [], sid => [createStatus sid]
  | s :: rest, sid =>
    if s.id = sid then { s with duration := 2 } :: rest
    else s :: applyStatusList rest sid

/-- The `BattleScene.updateStatusDurations`, at the level of a status list: every
entry's duration is decremented and entries whose duration reaches `≤ 0` are
removed (the source iterates backwards with `splice`, which removes exactly
the decremented entries that are `≤ 0`, independently of order). -/
def decayStatuses : List ActiveStatus → List ActiveStatus
  | [] => []
  | s :: rest =>
    let s' : ActiveStatus := { s with duration := s.duration - 1 }
    if s'.duration ≤ 0 then decayStatuses rest else s' :: decayStatuses rest

-- ============================================================================
-- Memories.ts: data model
-- ============================================================================

/-- The `type` field of `Move` in Memories.ts. -/
inductive MoveType
  | comfort
  | heal
  | special
deriving DecidableEq, Repr

/-- The `Move` from Memories.ts (presentation-only fields omitted). -/
structure Move where
  id : String
  name : String
  power : ℚ
  type : MoveType
  statusEffect : Option StatusType := none
  statusChance : Option ℚ := none
  selfStatus : Option StatusType := none
deriving DecidableEq, Repr

/-- The `Memory` from Memories.ts: the player combatant (sprite and description
omitted). -/
structure Memory where
  id : String
  name : String
  maxVibe : ℤ
  currentVibe : ℤ
  moves : List Move
  level : ℤ
  xp : ℤ
  xpToNextLevel : ℤ
  activeStatuses : List ActiveStatus
deriving DecidableEq, Repr

/-- The `StressEnemy` from Memories.ts: the opponent (sprite and text fields
omitted). -/
structure StressEnemy where
  id : String
  name : String
  maxStress : ℤ
  currentStress : ℤ
  attackPower : ℚ
  level : ℤ
  vibeReward : ℤ
  xpReward : ℤ
  activeStatuses : List ActiveStatus
deriving DecidableEq, Repr

/-- The `calculateDamage` from Memories.ts:
`Math.round(basePower * (1 + (Math.random() * variance * 2 - variance)))`
with `variance = 0.2`, the draw being the parameter `r`. -/
def calculateDamage (basePower : ℚ) (r : ℚ) : ℤ :=
  let variance : ℚ := 2/10
  let multiplier : ℚ := 1 + (r * variance * 2 - variance)
  jsRound (basePower * multiplier)

-- ============================================================================
-- Memories.ts: concrete data
-- ============================================================================

/-- The `workStress` template of `STRESS_ENEMIES`, without `currentStress`. -/
def workStressTemplate : StressEnemy :=
  { id := "workStress", name := "Work Stress", maxStress := 50,
    currentStress := 0, attackPower := 8, level := 3,
    vibeReward := 10, xpReward := 30, activeStatuses := [] }

/-- The `STRESS_ENEMIES` from Memories.ts as an association list keyed by the
record key (the `currentStress` of each template is irrelevant and set to 0). -/
def STRESS_ENEMIES : List (String × StressEnemy) :=
  [("workStress", workStressTemplate),
   ("anxietyCloud",
    { id := "anxietyCloud", name := "Anxiety Cloud", maxStress := 70,
      currentStress := 0, attackPower := 12, level := 5,
      vibeReward := 15, xpReward := 50, activeStatuses := [] }),
   ("loneliness",
    { id := "loneliness", name := "Loneliness", maxStress := 100,
      currentStress := 0, attackPower := 15, level := 8,
      vibeReward := 25, xpReward := 80, activeStatuses := [] }),
   ("mondayBlues",
    { id := "mondayBlues", name := "Monday Blues", maxStress := 40,
      currentStress := 0, attackPower := 6, level := 2,
      vibeReward := 8, xpReward := 20, activeStatuses := [] }),
   ("socialDrain",
    { id := "socialDrain", name := "Social Drain", maxStress := 60,
      currentStress := 0, attackPower := 10, level := 4,
      vibeReward := 12, xpReward := 40, activeStatuses := [] })]

/-- The `createEnemyInstance` from Memories.ts: looks the id up in
`STRESS_ENEMIES`; a missing entry falls back to the `workStress` template.
The instance is the template with `currentStress` set to its `maxStress` and
a fresh empty status list. -/
def createEnemyInstance (enemyId : String) : StressEnemy :=
  match STRESS_ENEMIES.lookup enemyId with
  | none =>
    { workStressTemplate with
        currentStress := workStressTemplate.maxStress, activeStatuses := [] }
  | some template =>
    { template with
        currentStress := template.maxStress, activeStatuses := [] }

/-- The `MOVES` from Memories.ts. -/
def MOVES : List (String × Move) :=
  [("hug",
    { id := "hug", name := "Warm Hug", power := 15, type := .comfort,
      statusEffect := some .BLUSHING, statusChance := some (3/10) }),
   ("joke",
    { id := "joke", name := "Inside Joke", power := 20, type := .comfort,
      statusEffect := some .LAUGHING, statusChance := some (4/10) }),
   ("kiss",
    { id := "kiss", name := "Sweet Kiss", power := 30, type := .comfort,
      statusEffect := some .INSPIRED, selfStatus := some .INSPIRED,
      statusChance := some (5/10) }),
   ("words",
    { id := "words", name := "Gentle Words", power := 10, type := .heal,
      selfStatus := some .PROUD, statusChance := some (2/10) }),
   ("cuddle",
    { id := "cuddle", name := "Cozy Cuddle", power := 25, type := .comfort }),
   ("dance",
    { id := "dance", name := "Silly Dance", power := 18, type := .special,
      statusEffect := some .CONFUSED, statusChance := some (6/10) })]

/-- The `DEFAULT_PLAYER_MEMORY` from Memories.ts. -/
def DEFAULT_PLAYER_MEMORY : Memory :=
  { id := "loveHeart", name := "Love", maxVibe := 100, currentVibe := 100,
    moves := (MOVES.map Prod.snd).take 4,
    level := 5, xp := 0, xpToNextLevel := 500, activeStatuses := [] }

-- ============================================================================
-- Items.ts
-- ============================================================================

/-- The `type` field of `Item` in Items.ts. -/
inductive ItemType
  | heal
  | comfort
  | special
  | seed
  | resource
deriving DecidableEq, Repr

/-- The `Item` from Items.ts (description and emoji omitted). All catalog values
are nonnegative integers, so `value : ℕ`. -/
structure Item where
  id : String
  name : String
  type : ItemType
  value : ℕ
  plantId : Option String := none
deriving DecidableEq, Repr

/-- The `ITEMS` from Items.ts as an association list keyed by the record key. -/
def ITEMS : List (String × Item) :=
  [("chocolate", { id := "chocolate", name := "Dark Chocolate", type := .heal, value := 30 }),
   ("coffee", { id := "coffee", name := "Espresso", type := .heal, value := 50 }),
   ("flower", { id := "flower", name := "Wildflower", type := .comfort, value := 20 }),
   ("loveLetter", { id := "loveLetter", name := "Love Note", type := .comfort, value := 40 }),
   ("plushie", { id := "plushie", name := "Tiny Plushie", type := .comfort, value := 30 }),
   ("seed_rose", { id := "seed_rose", name := "Rose Seeds", type := .seed, value := 0, plantId := some "rose" }),
   ("seed_sunflower", { id := "seed_sunflower", name := "Sunflower Seeds", type := .seed, value := 0, plantId := some "sunflower" }),
   ("seed_coffee", { id := "seed_coffee", name := "Raw Coffee Bean", type := .seed, value := 0, plantId := some "coffee_bean" }),
   ("flower_rose", { id := "flower_rose", name := "Fresh Rose", type := .comfort, value := 25 }),
   ("flower_sunflower", { id := "flower_sunflower", name := "Sunflower", type := .comfort, value := 20 }),
   ("coffee_beans", { id := "coffee_beans", name := "Roasted Beans", type := .resource, value := 10 }),
   ("seed_love_berry", { id := "seed_love_berry", name := "Love Berry Seed", type := .seed, value := 0, plantId := some "love_berry" }),
   ("love_berry", { id := "love_berry", name := "Love Berry", type := .heal, value := 50 })]

-- ============================================================================
-- GameState.ts: inventory and collected memories
-- ============================================================================

/-- The inventory `Map<string, number>` of `GameStateManager`, as an
association list of id and count. -/
def Inventory := List (String × ℕ)

/-- The `GameStateManager.useItem` with `count = 1`: reads the current count
(0 when absent), fails when it is below 1, otherwise decrements, deleting
the entry when the new count is 0. Returns the new inventory and the
success flag. -/
def invUseItem (inv : Inventory) (id : String) : Inventory × Bool :=
  let current : ℕ := ((inv : List (String × ℕ)).lookup id).getD 0
  if current < 1 then (inv, false)
  else
    let newValue := current - 1
    if newValue = 0 then
      ((inv : List (String × ℕ)).filter (fun p => p.1 ≠ id), true)
    else
      ((inv : List (String × ℕ)).map
        (fun p => if p.1 = id then (p.1, newValue) else p), true)

/-- Count held for an id, as `GameStateManager.getItemCount`. -/
def invCount (inv : Inventory) (id : String) : ℕ :=
  ((inv : List (String × ℕ)).lookup id).getD 0

/-- The persistent collected-memory state of `GameStateManager`
(`collectedMemories: string[]` plus the `isReadyForFinale` flag). -/
structure GameStateM where
  collectedMemories : List String
  isReadyForFinale : Bool
deriving DecidableEq, Repr

/-- The `GameStateManager.hasCollected`: membership in `collectedMemories`. -/
def hasCollected (gs : GameStateM) (id : String) : Bool :=
  gs.collectedMemories.contains id

/-- The `GameStateManager.collectMemory`: a no-op returning `false` when already
collected, otherwise pushes the id and returns `true`. -/
def collectMemory (gs : GameStateM) (id : String) : GameStateM × Bool :=
  if hasCollected gs id then (gs, false)
  else ({ gs with collectedMemories := gs.collectedMemories ++ [id] }, true)

/-- The `GameStateManager.getCollectedCount`. -/
def getCollectedCount (gs : GameStateM) : ℕ :=
  gs.collectedMemories.length

/-- The ids of `AllMemories` from MemoriesData.ts. -/
def AllMemoryIds : List String :=
  ["paris_trip", "first_kiss", "pizza_night", "stargazing",
   "rainy_day", "movie_marathon"]

-- ============================================================================
-- BattleScene.ts: battle state
-- ============================================================================

/-- The two combatant records owned by `BattleScene` during one battle. -/
structure BattleCombatants where
  player : Memory
  enemy : StressEnemy
deriving DecidableEq, Repr

/-- The side whose statuses or resources an operation touches, matching the
`'player' | 'enemy'` string arguments in BattleScene.ts. -/
inductive Target
  | player
  | enemy
deriving DecidableEq, Repr

/-- The relevant battle states of the `BattleState` enum. -/
inductive Phase
  | PLAYER_TURN
  | ENEMY_TURN
  | VICTORY
  | DEFEAT
  | RUN_AWAY
deriving DecidableEq, Repr

/-- Read a side's status list. -/
def getStatuses (st : BattleCombatants) : Target → List ActiveStatus
  | .player => st.player.activeStatuses
  | .enemy => st.enemy.activeStatuses

/-- Write a side's status list. -/
def setStatuses (st : BattleCombatants) : Target → List ActiveStatus → BattleCombatants
  | .player, l => { st with player := { st.player with activeStatuses := l } }
  | .enemy, l => { st with enemy := { st.enemy with activeStatuses := l } }

/-- The `BattleScene.applyStatus` on the battle state. -/
def applyStatus (target : Target) (statusId : StatusType) (st : BattleCombatants) : BattleCombatants :=
  setStatuses st target (applyStatusList (getStatuses st target) statusId)

/-- The `BattleScene.updateStatusDurations` on the battle state. -/
def updateStatusDurations (target : Target) (st : BattleCombatants) : BattleCombatants :=
  setStatuses st target (decayStatuses (getStatuses st target))

/-- The `BattleScene.processTurnStatus`: on the already-decayed state, LAUGHING
skips with probability 0.5, then DISTRACTED skips with probability 0.3, then
PROUD heals 5 vibe — only when the target is the player. Returns `false`
when the turn is skipped, together with the updated state. The two skip
draws are the parameters `rLaugh` and `rDistracted`. -/
def processTurnStatus (target : Target) (st : BattleCombatants)
    (rLaugh rDistracted : ℚ) : Bool × BattleCombatants :=
  let statuses := getStatuses st target
  if hasStatus statuses .LAUGHING ∧ rLaugh < 5/10 then
    (false, st)
  else if hasStatus statuses .DISTRACTED ∧ rDistracted < 3/10 then
    (false, st)
  else if hasStatus statuses .PROUD ∧ target = .player then
    (true, { st with player := { st.player with
      currentVibe := min st.player.maxVibe (st.player.currentVibe + 5) } })
  else
    (true, st)

/-- The turn-start sequence common to `transitionToPlayerTurn` and
`enemyTurn`: `updateStatusDurations` then `processTurnStatus`. -/
def turnStart (target : Target) (st : BattleCombatants)
    (rLaugh rDistracted : ℚ) : Bool × BattleCombatants :=
  processTurnStatus target (updateStatusDurations target st) rLaugh rDistracted

-- ============================================================================
-- BattleScene.ts: player move resolution
-- ============================================================================

/-- The `RhythmResult` from BattleRhythmUI.ts. -/
inductive RhythmResult
  | PERFECT
  | GOOD
  | MISS
deriving DecidableEq, Repr

/-- The rhythm multiplier step of `handleActionCommandResult`:
`Math.floor(damage * 1.5)` on PERFECT, `* 1.2` on GOOD, `* 0.8` otherwise. -/
def rhythmAdjust (damage : ℤ) : RhythmResult → ℤ
  | .PERFECT => jsFloor ((damage : ℚ) * (15/10))
  | .GOOD => jsFloor ((damage : ℚ) * (12/10))
  | .MISS => jsFloor ((damage : ℚ) * (8/10))

/-- The full damage computation of `handleActionCommandResult`:
`calculateDamage(move.power)`, then the rhythm multiplier, then
`Math.floor(damage * 2)` when the player is INSPIRED, then
`Math.floor(damage * 0.7)` when the player is TIRED. -/
def playerMoveDamage (power : ℚ) (result : RhythmResult) (rVariance : ℚ)
    (playerStatuses : List ActiveStatus) : ℤ :=
  let damage := calculateDamage power rVariance
  let damage := rhythmAdjust damage result
  let damage :=
    if hasStatus playerStatuses .INSPIRED then jsFloor ((damage : ℚ) * 2)
    else damage
  if hasStatus playerStatuses .TIRED then jsFloor ((damage : ℚ) * (7/10))
  else damage

/-- JS `move.statusChance || 0.5`: the default 0.5 applies when the field is
absent or falsy (0). -/
def statusChanceOrDefault (c : Option ℚ) : ℚ :=
  match c with
  | none => 5/10
  | some c => if c = 0 then 5/10 else c

/-- The state mutation of `handleActionCommandResult` (the tween callbacks,
in source order): subtract the damage from the enemy's stress floored at 0;
draw against `statusChance` and on success apply `statusEffect` to the
enemy; apply `selfStatus` to the player unconditionally; on a `heal` move
restore `Math.round(damage * 0.3)` vibe capped at max. `rVariance` is the
`calculateDamage` draw and `rStatus` the status-chance draw. -/
def resolvePlayerMove (st : BattleCombatants) (move : Move)
    (result : RhythmResult) (rVariance rStatus : ℚ) : BattleCombatants :=
  let damage := playerMoveDamage move.power result rVariance st.player.activeStatuses
  let st := { st with enemy := { st.enemy with
    currentStress := max 0 (st.enemy.currentStress - damage) } }
  let st :=
    match move.statusEffect with
    | some eff =>
      if rStatus < statusChanceOrDefault move.statusChance then
        applyStatus .enemy eff st
      else st
    | none => st
  let st :=
    match move.selfStatus with
    | some eff => applyStatus .player eff st
    | none => st
  if move.type = .heal then
    let healAmount := jsRound ((damage : ℚ) * (3/10))
    { st with player := { st.player with
      currentVibe := min st.player.maxVibe (st.player.currentVibe + healAmount) } }
  else st

/-- The termination check after the player's move: victory when the enemy's
stress is `≤ 0`, otherwise the enemy acts. -/
def afterPlayerAction (st : BattleCombatants) : Phase :=
  if st.enemy.currentStress ≤ 0 then .VICTORY else .ENEMY_TURN

-- ============================================================================
-- BattleScene.ts: enemy turn
-- ============================================================================

/-- How the enemy's turn resolved. -/
inductive EnemyTurnOutcome
  | skipped
  | confusedHelp
  | attacked (damage : ℤ)
deriving DecidableEq, Repr

/-- The `BattleScene.enemyTurn`: decay the enemy's statuses, run the skip checks;
when CONFUSED, a 0.5 draw redirects the action into a 10-vibe gift to the
player; otherwise `calculateDamage(attackPower)` is subtracted from the
player's vibe floored at 0, and the defeat check runs. The resulting phase is
the state the scene schedules next (`PLAYER_TURN` via
`transitionToPlayerTurn`, or `DEFEAT`). -/
def enemyTurn (st : BattleCombatants)
    (rLaugh rDistracted rConfused rVariance : ℚ) :
    EnemyTurnOutcome × BattleCombatants × Phase :=
  let (proceed, st) := turnStart .enemy st rLaugh rDistracted
  if !proceed then
    (.skipped, st, .PLAYER_TURN)
  else if hasStatus st.enemy.activeStatuses .CONFUSED ∧ rConfused < 5/10 then
    let st := { st with player := { st.player with
      currentVibe := min st.player.maxVibe (st.player.currentVibe + 10) } }
    (.confusedHelp, st, .PLAYER_TURN)
  else
    let damage := calculateDamage st.enemy.attackPower rVariance
    let st := { st with player := { st.player with
      currentVibe := max 0 (st.player.currentVibe - damage) } }
    if st.player.currentVibe ≤ 0 then
      (.attacked damage, st, .DEFEAT)
    else
      (.attacked damage, st, .PLAYER_TURN)

/-- The `BattleScene.attemptRun`: a draw against 0.7; on success the state
becomes RUN_AWAY with both combatants untouched; on failure `enemyTurn`
runs on the unchanged state. -/
def attemptRun (st : BattleCombatants)
    (rRun rLaugh rDistracted rConfused rVariance : ℚ) :
    EnemyTurnOutcome × BattleCombatants × Phase :=
  if rRun < 7/10 then
    (.skipped, st, .RUN_AWAY)
  else
    enemyTurn st rLaugh rDistracted rConfused rVariance

-- ============================================================================
-- BattleScene.ts: item use
-- ============================================================================

/-- The state mutation of `BattleScene.useItem` after a successful
`GameState.useItem`: `heal`/`special` items restore `item.value` vibe capped
at max; `comfort`/`special` items subtract `item.value` stress floored
at 0. Other item types change neither pool. -/
def applyItemEffects (st : BattleCombatants) (item : Item) : BattleCombatants :=
  let st :=
    if item.type = .heal ∨ item.type = .special then
      { st with player := { st.player with
        currentVibe := min st.player.maxVibe (st.player.currentVibe + (item.value : ℤ)) } }
    else st
  if item.type = .comfort ∨ item.type = .special then
    { st with enemy := { st.enemy with
      currentStress := max 0 (st.enemy.currentStress - (item.value : ℤ)) } }
  else st

/-- The `BattleScene.useItem` on the battle state and inventory: consume one
unit via the inventory collaborator; when that fails nothing happens and the
scene stays in item selection (`none`); on success the item's effects apply
and after the pause either victory or the enemy's turn follows. -/
def useItem (st : BattleCombatants) (inv : Inventory) (item : Item) :
    BattleCombatants × Inventory × Option Phase :=
  let (inv', ok) := invUseItem inv item.id
  if ok then
    let st := applyItemEffects st item
    if st.enemy.currentStress ≤ 0 then
      (st, inv', some .VICTORY)
    else
      (st, inv', some .ENEMY_TURN)
  else
    (st, inv, none)

-- ============================================================================
-- BattleScene.ts: victory, progression, defeat
-- ============================================================================

/-- The player-record mutation of `BattleScene.handleVictory`: restore
`vibeReward` capped at max; add `xpReward || 30` to xp; re-derive a falsy
(0) `xpToNextLevel` as `level * 100`; then a single `if`: when
`xp >= xpToNextLevel`, subtract the threshold once, increment the level,
add 10 to `maxVibe`, set `currentVibe` to the new max, and recompute
`xpToNextLevel = level * 100`. -/
def handleVictoryUpdate (m : Memory) (vibeReward xpReward : ℤ) : Memory :=
  let m := { m with currentVibe := min m.maxVibe (m.currentVibe + vibeReward) }
  let xpGain := if xpReward = 0 then 30 else xpReward
  let m := { m with xp := m.xp + xpGain }
  let m := if m.xpToNextLevel = 0 then { m with xpToNextLevel := m.level * 100 } else m
  if m.xp ≥ m.xpToNextLevel then
    let m := { m with xp := m.xp - m.xpToNextLevel, level := m.level + 1 }
    let m := { m with maxVibe := m.maxVibe + 10 }
    let m := { m with currentVibe := m.maxVibe }
    { m with xpToNextLevel := m.level * 100 }
  else m

/-- The progression loop the specification describes for `applyXp` (kept
for comparison with `handleVictoryUpdate`; the `fuel` bound makes the
recursion structural and any sufficiently large fuel reaches the fixed
point): while `xp >= xpToNextLevel`, subtract the threshold, increment the
level, add the fixed step to `maxResource`, restore `currentResource`, and
recompute the threshold as `level * 100`. -/
def specApplyXpLoop (m : Memory) : ℕ → Memory
  | 0 => m
  | fuel + 1 =>
    if m.xp ≥ m.xpToNextLevel then
      let m := { m with xp := m.xp - m.xpToNextLevel, level := m.level + 1 }
      let m := { m with maxVibe := m.maxVibe + 10 }
      let m := { m with currentVibe := m.maxVibe }
      specApplyXpLoop { m with xpToNextLevel := m.level * 100 } fuel
    else m

/-- The player-record mutation of `BattleScene.handleDefeat`: restore the
vibe to `Math.floor(maxVibe / 2)`. -/
def handleDefeatUpdate (m : Memory) : Memory :=
  { m with currentVibe := jsFloor ((m.maxVibe : ℚ) / 2) }

-- ============================================================================
-- BattleScene.ts: memory drop
-- ============================================================================

/-- The `BattleScene.tryDropMemory`: filter `AllMemories` down to the ids not
yet collected; when nonempty, pick index `Math.floor(r * length)` and
collect it. Returns the updated persistent state and the dropped id. -/
def tryDropMemory (gs : GameStateM) (r : ℚ) : GameStateM × Option String :=
  let uncollected := AllMemoryIds.filter (fun id => !hasCollected gs id)
  if uncollected.length ≠ 0 then
    let randomIndex := (jsFloor (r * uncollected.length)).toNat
    let dropped := uncollected.getD randomIndex ""
    ((collectMemory gs dropped).1, some dropped)
  else
    (gs, none)

/-- The `BattleScene.checkEndgame`: sets the `isReadyForFinale` flag exactly
when the collected count equals the catalog size. -/
def checkEndgame (gs : GameStateM) : GameStateM :=
  if getCollectedCount gs = AllMemoryIds.length then
    { gs with isReadyForFinale := true }
  else gs

-- ============================================================================
-- Helper lemmas
-- ============================================================================

theorem jsFloor_mono {a b : ℚ} (h : a ≤ b) : jsFloor a ≤ jsFloor b :=
  Int.floor_le_floor h

theorem jsRound_mono {a b : ℚ} (h : a ≤ b) : jsRound a ≤ jsRound b :=
  Int.floor_le_floor (by linarith)

theorem jsFloor_nonneg {a : ℚ} (h : 0 ≤ a) : 0 ≤ jsFloor a :=
  Int.floor_nonneg.mpr h

theorem jsRound_nonneg {a : ℚ} (h : 0 ≤ a) : 0 ≤ jsRound a :=
  Int.floor_nonneg.mpr (by linarith)

-- ============================================================================
-- C1: experience and level-up on victory
-- ============================================================================

/-- C1, amended: `handleVictory` adds the grant (with `xpReward || 30`) to
`xp` and re-derives a zero threshold as `level * 100`; then a single `if`
(not a loop) performs at most one level-up: when the grown `xp` reaches the
threshold it subtracts the threshold once, increments the level by exactly 1
(even when the grant crosses several thresholds), adds 10 to `maxVibe`,
restores `currentVibe` to the new max and recomputes `xpToNextLevel` as
`level * 100`; otherwise only `xp` grows. The remaining `xp` is never
negative, but it can still be at or above the new threshold. -/
theorem handleVictory_xp_single_threshold (m : Memory) (vibeReward xpReward : ℤ)
    (hxp : 0 ≤ m.xp) (hreward : 0 ≤ xpReward) :
    ((if m.xpToNextLevel = 0 then m.level * 100 else m.xpToNextLevel) ≤
        m.xp + (if xpReward = 0 then 30 else xpReward) →
      (handleVictoryUpdate m vibeReward xpReward).level = m.level + 1 ∧
      (handleVictoryUpdate m vibeReward xpReward).xp =
        m.xp + (if xpReward = 0 then 30 else xpReward) -
          (if m.xpToNextLevel = 0 then m.level * 100 else m.xpToNextLevel) ∧
      (handleVictoryUpdate m vibeReward xpReward).maxVibe = m.maxVibe + 10 ∧
      (handleVictoryUpdate m vibeReward xpReward).currentVibe =
        (handleVictoryUpdate m vibeReward xpReward).maxVibe ∧
      (handleVictoryUpdate m vibeReward xpReward).xpToNextLevel =
        (m.level + 1) * 100) ∧
    (m.xp + (if xpReward = 0 then 30 else xpReward) <
        (if m.xpToNextLevel = 0 then m.level * 100 else m.xpToNextLevel) →
      (handleVictoryUpdate m vibeReward xpReward).level = m.level ∧
      (handleVictoryUpdate m vibeReward xpReward).xp =
        m.xp + (if xpReward = 0 then 30 else xpReward) ∧
      (handleVictoryUpdate m vibeReward xpReward).maxVibe = m.maxVibe) ∧
    0 ≤ (handleVictoryUpdate m vibeReward xpReward).xp := by
  simp only [handleVictoryUpdate]
  split_ifs <;> simp_all <;> omega

/-- A concrete level-1 player combatant with 0 xp, threshold 100, used to
exercise the progression code. -/
def xpProbeMemory : Memory :=
  { id := "probe", name := "Probe", maxVibe := 100, currentVibe := 50,
    moves := [], level := 1, xp := 0, xpToNextLevel := 100,
    activeStatuses := [] }

/-- C1 is false as stated: a single grant of 350 xp to a level-1 combatant
with threshold 100 crosses two thresholds (100, then 200) — the loop the
claim describes ends at level 3 with 50 xp — but `handleVictory` performs a
single `if`, leaving level 2 and 250 xp, which still exceeds the new
threshold 200. -/
theorem handleVictory_xp_multi_threshold_fails :
    (handleVictoryUpdate xpProbeMemory 0 350).level = 2 ∧
    (handleVictoryUpdate xpProbeMemory 0 350).xp = 250 ∧
    (handleVictoryUpdate xpProbeMemory 0 350).xpToNextLevel = 200 ∧
    (handleVictoryUpdate xpProbeMemory 0 350).xpToNextLevel ≤
      (handleVictoryUpdate xpProbeMemory 0 350).xp ∧
    (specApplyXpLoop { xpProbeMemory with xp := xpProbeMemory.xp + 350 } 10).level = 3 ∧
    (specApplyXpLoop { xpProbeMemory with xp := xpProbeMemory.xp + 350 } 10).xp = 50 := by
  decide

/-- Witness for C1's amended theorem at the same concrete input. -/
theorem handleVictory_xp_single_threshold_witness :
    (handleVictoryUpdate xpProbeMemory 0 350).level = xpProbeMemory.level + 1 ∧
    (handleVictoryUpdate xpProbeMemory 0 350).xp =
      xpProbeMemory.xp + 350 - xpProbeMemory.xpToNextLevel ∧
    0 ≤ (handleVictoryUpdate xpProbeMemory 0 350).xp := by
  have h := handleVictory_xp_single_threshold xpProbeMemory 0 350
    (by decide) (by decide)
  refine ⟨?_, ?_, h.2.2⟩
  · exact (h.1 (by decide)).1
  · have := (h.1 (by decide)).2.1
    simpa using this

-- ============================================================================
-- C2: damage intervals
-- ============================================================================

/-- C2, amended: for positive power `p` and any variance draw, the base
damage (used with no timing outcome, e.g. the enemy's attack) is an integer
in `[round(0.8p), round(1.2p)]`; the PERFECT-timing damage with no statuses
is `floor(1.5 * d)` for that base `d`, hence an integer in
`[floor(1.5 * round(0.8p)), floor(1.5 * round(1.2p))]` (and not in the
interval `[round(1.2p), round(1.8p)]` the claim states, since the base is
rounded before the multiplier). -/
theorem resolved_damage_bounds (p r : ℚ) (hp : 0 < p) (hr0 : 0 ≤ r) (hr1 : r < 1) :
    (jsRound ((8/10) * p) ≤ calculateDamage p r ∧
     calculateDamage p r ≤ jsRound ((12/10) * p)) ∧
    (jsFloor ((jsRound ((8/10) * p) : ℚ) * (15/10)) ≤
       playerMoveDamage p RhythmResult.PERFECT r [] ∧
     playerMoveDamage p RhythmResult.PERFECT r [] ≤
       jsFloor ((jsRound ((12/10) * p) : ℚ) * (15/10))) := by
  have hbase_lo : jsRound ((8/10) * p) ≤ calculateDamage p r := by
    unfold calculateDamage
    exact jsRound_mono (by nlinarith)
  have hbase_hi : calculateDamage p r ≤ jsRound ((12/10) * p) := by
    unfold calculateDamage
    exact jsRound_mono (by nlinarith)
  have hperf : playerMoveDamage p RhythmResult.PERFECT r [] =
      jsFloor ((calculateDamage p r : ℚ) * (15/10)) := by
    simp [playerMoveDamage, hasStatus, rhythmAdjust]
  refine ⟨⟨hbase_lo, hbase_hi⟩, ?_, ?_⟩
  · rw [hperf]
    refine jsFloor_mono ?_
    have : ((jsRound ((8/10) * p) : ℚ)) ≤ (calculateDamage p r : ℚ) :=
      Int.cast_le.mpr hbase_lo
    nlinarith
  · rw [hperf]
    refine jsFloor_mono ?_
    have : ((calculateDamage p r : ℚ)) ≤ (jsRound ((12/10) * p) : ℚ) :=
      Int.cast_le.mpr hbase_hi
    nlinarith

/-- C2 is false as stated for the PERFECT interval: with power 3 and the
lowest variance draw, the base damage is `round(3 * 0.8) = 2`, PERFECT
damage is `floor(2 * 1.5) = 3`, but the claimed lower bound is
`round(1.2 * 3) = 4` — the source rounds before the timing multiplier, the
claim rounds after. -/
theorem perfect_damage_interval_fails :
    calculateDamage 3 0 = 2 ∧
    playerMoveDamage 3 RhythmResult.PERFECT 0 [] = 3 ∧
    jsRound ((12/10) * 3) = 4 ∧
    ¬(jsRound ((12/10) * 3) ≤ playerMoveDamage 3 RhythmResult.PERFECT 0 []) := by
  have h1 : calculateDamage 3 0 = 2 := by
    norm_num [calculateDamage, jsRound]
  have h2 : playerMoveDamage 3 RhythmResult.PERFECT 0 [] = 3 := by
    simp only [playerMoveDamage, hasStatus, rhythmAdjust, h1]
    norm_num [jsFloor]
  have h3 : jsRound ((12/10) * 3) = 4 := by
    norm_num [jsRound]
  exact ⟨h1, h2, by norm_num [jsRound], by rw [h2, h3]; norm_num⟩

/-- Witness for C2's amended theorem at power 20 and draw 1/2. -/
theorem resolved_damage_bounds_witness :
    (jsRound ((8/10) * 20) ≤ calculateDamage 20 (1/2) ∧
     calculateDamage 20 (1/2) ≤ jsRound ((12/10) * 20)) ∧
    (jsFloor ((jsRound ((8/10) * 20) : ℚ) * (15/10)) ≤
       playerMoveDamage 20 RhythmResult.PERFECT (1/2) [] ∧
     playerMoveDamage 20 RhythmResult.PERFECT (1/2) [] ≤
       jsFloor ((jsRound ((12/10) * 20) : ℚ) * (15/10))) :=
  resolved_damage_bounds 20 (1/2) (by norm_num) (by norm_num) (by norm_num)

-- ============================================================================
-- C3: status application never stacks a kind
-- ============================================================================

theorem applyStatusList_ids_of_active {l : List ActiveStatus} {sid : StatusType}
    (h : hasStatus l sid = true) :
    (applyStatusList l sid).map ActiveStatus.id = l.map ActiveStatus.id := by
  induction l with
  | nil => simp [hasStatus] at h
  | cons s rest ih =>
    by_cases hs : s.id = sid
    · simp [applyStatusList, hs]
    · have h' : hasStatus rest sid = true := by
        simp [hasStatus] at h ⊢
        tauto
      simp [applyStatusList, hs, ih h']

theorem applyStatusList_eq_set_of_active {l : List ActiveStatus} {sid : StatusType}
    (h : hasStatus l sid = true) :
    ∃ i, ∃ hi : i < l.length, (l.get ⟨i, hi⟩).id = sid ∧
      applyStatusList l sid = l.set i { l.get ⟨i, hi⟩ with duration := 2 } := by
  induction l with
  | nil => simp [hasStatus] at h
  | cons s rest ih =>
    by_cases hs : s.id = sid
    · exact ⟨0, by simp, by simpa using hs, by simp [applyStatusList, hs]⟩
    · have h' : hasStatus rest sid = true := by
        simp [hasStatus] at h ⊢
        tauto
      obtain ⟨i, hi, hid, heq⟩ := ih h'
      exact ⟨i + 1, by simpa using hi, by simpa using hid,
        by simp [applyStatusList, hs, heq]⟩

theorem applyStatusList_ids_of_inactive {l : List ActiveStatus} {sid : StatusType}
    (h : hasStatus l sid = false) :
    (applyStatusList l sid).map ActiveStatus.id = l.map ActiveStatus.id ++ [sid] := by
  induction l with
  | nil => simp [applyStatusList, createStatus]
  | cons s rest ih =>
    simp only [hasStatus, List.any_cons, Bool.or_eq_false_iff, decide_eq_false_iff_not] at h
    simp [applyStatusList, h.1, ih (by simpa [hasStatus] using h.2)]

theorem decayStatuses_ids_sublist (l : List ActiveStatus) :
    ((decayStatuses l).map ActiveStatus.id).Sublist (l.map ActiveStatus.id) := by
  induction l with
  | nil => simp [decayStatuses]
  | cons s rest ih =>
    by_cases hd : s.duration - 1 ≤ 0
    · simpa [decayStatuses, hd] using ih.trans (List.sublist_cons_self _ _)
    · simpa [decayStatuses, hd] using ih.cons₂ s.id

theorem not_mem_ids_of_inactive {l : List ActiveStatus} {sid : StatusType}
    (h : hasStatus l sid = false) : sid ∉ l.map ActiveStatus.id := by
  intro hmem
  obtain ⟨s, hs, hid⟩ := List.mem_map.mp hmem
  simp only [hasStatus, List.any_eq_false, decide_eq_false_iff_not] at h
  exact h s hs (decide_eq_true hid)

/-- C3: `applyStatus` on a kind already active never appends a second entry:
the list of kinds is unchanged and the result is the input list with the
first entry of that kind — and nothing else — set to the default duration 2.
Moreover one-per-kind uniqueness is an invariant: it is preserved by
`applyStatus` (for any kind, active or not) and by the duration decay, so a
combatant starting from the empty list holds at most one status per kind at
all times. -/
theorem applyStatus_refreshes_no_stack (l : List ActiveStatus) (sid : StatusType) :
    (hasStatus l sid = true →
      (applyStatusList l sid).map ActiveStatus.id = l.map ActiveStatus.id ∧
      ∃ i, ∃ hi : i < l.length, (l.get ⟨i, hi⟩).id = sid ∧
        applyStatusList l sid = l.set i { l.get ⟨i, hi⟩ with duration := 2 }) ∧
    ((l.map ActiveStatus.id).Nodup →
      ((applyStatusList l sid).map ActiveStatus.id).Nodup ∧
      ((decayStatuses l).map ActiveStatus.id).Nodup) := by
  constructor
  · intro h
    exact ⟨applyStatusList_ids_of_active h, applyStatusList_eq_set_of_active h⟩
  · intro hnd
    refine ⟨?_, (decayStatuses_ids_sublist l).nodup hnd⟩
    cases hact : hasStatus l sid with
    | true => rw [applyStatusList_ids_of_active hact]; exact hnd
    | false =>
      rw [applyStatusList_ids_of_inactive hact]
      refine (List.nodup_append).mpr ⟨hnd, List.nodup_singleton sid, ?_⟩
      intro a ha hb
      rw [List.mem_singleton] at hb
      exact not_mem_ids_of_inactive hact (hb ▸ ha)

/-- A concrete status list with an active BLUSHING entry. -/
def probeStatuses : List ActiveStatus :=
  [{ id := .BLUSHING, duration := 1 }, { id := .PROUD, duration := 3 }]

/-- Witness for C3 at a concrete list holding BLUSHING. -/
theorem applyStatus_refreshes_no_stack_witness :
    ((applyStatusList probeStatuses .BLUSHING).map ActiveStatus.id =
       probeStatuses.map ActiveStatus.id ∧
     ∃ i, ∃ hi : i < probeStatuses.length,
       (probeStatuses.get ⟨i, hi⟩).id = .BLUSHING ∧
       applyStatusList probeStatuses .BLUSHING =
         probeStatuses.set i { probeStatuses.get ⟨i, hi⟩ with duration := 2 }) ∧
    (((applyStatusList probeStatuses .BLUSHING).map ActiveStatus.id).Nodup ∧
     ((decayStatuses probeStatuses).map ActiveStatus.id).Nodup) :=
  ⟨(applyStatus_refreshes_no_stack probeStatuses .BLUSHING).1 (by decide),
   (applyStatus_refreshes_no_stack probeStatuses .BLUSHING).2 (by decide)⟩

-- ============================================================================
-- C4: resource pools stay clamped to [0, max]
-- ============================================================================

/-- The invariant of the player's resource pool. -/
def vibeInv (m : Memory) : Prop :=
  0 ≤ m.currentVibe ∧ m.currentVibe ≤ m.maxVibe

/-- The invariant of the enemy's resource pool. -/
def stressInv (e : StressEnemy) : Prop :=
  0 ≤ e.currentStress ∧ e.currentStress ≤ e.maxStress

/-- Both pools clamped. -/
def resourceInv (st : BattleCombatants) : Prop :=
  vibeInv st.player ∧ stressInv st.enemy

instance (m : Memory) : Decidable (vibeInv m) := by unfold vibeInv; infer_instance

instance (e : StressEnemy) : Decidable (stressInv e) := by unfold stressInv; infer_instance

instance (st : BattleCombatants) : Decidable (resourceInv st) := by
  unfold resourceInv; infer_instance

@[simp] theorem setStatuses_player_currentVibe (st : BattleCombatants) (t : Target)
    (l : List ActiveStatus) :
    (setStatuses st t l).player.currentVibe = st.player.currentVibe := by
  cases t <;> rfl

@[simp] theorem setStatuses_player_maxVibe (st : BattleCombatants) (t : Target)
    (l : List ActiveStatus) :
    (setStatuses st t l).player.maxVibe = st.player.maxVibe := by
  cases t <;> rfl

@[simp] theorem setStatuses_enemy_currentStress (st : BattleCombatants) (t : Target)
    (l : List ActiveStatus) :
    (setStatuses st t l).enemy.currentStress = st.enemy.currentStress := by
  cases t <;> rfl

@[simp] theorem setStatuses_enemy_maxStress (st : BattleCombatants) (t : Target)
    (l : List ActiveStatus) :
    (setStatuses st t l).enemy.maxStress = st.enemy.maxStress := by
  cases t <;> rfl

@[simp] theorem setStatuses_enemy_attackPower (st : BattleCombatants) (t : Target)
    (l : List ActiveStatus) :
    (setStatuses st t l).enemy.attackPower = st.enemy.attackPower := by
  cases t <;> rfl

theorem calculateDamage_nonneg {p r : ℚ} (hp : 0 ≤ p) (hr : 0 ≤ r) :
    0 ≤ calculateDamage p r := by
  unfold calculateDamage
  exact jsRound_nonneg (by nlinarith)

theorem rhythmAdjust_nonneg {d : ℤ} (hd : 0 ≤ d) (result : RhythmResult) :
    0 ≤ rhythmAdjust d result := by
  have hq : (0 : ℚ) ≤ (d : ℚ) := Int.cast_nonneg.mpr hd
  cases result <;> exact jsFloor_nonneg (by nlinarith)

theorem playerMoveDamage_nonneg {p r : ℚ} (hp : 0 ≤ p) (hr : 0 ≤ r)
    (result : RhythmResult) (l : List ActiveStatus) :
    0 ≤ playerMoveDamage p result r l := by
  unfold playerMoveDamage
  have h0 : 0 ≤ calculateDamage p r := calculateDamage_nonneg hp hr
  have h1 : 0 ≤ rhythmAdjust (calculateDamage p r) result := rhythmAdjust_nonneg h0 result
  have h2 : 0 ≤ (if hasStatus l .INSPIRED then
      jsFloor ((rhythmAdjust (calculateDamage p r) result : ℚ) * 2)
    else rhythmAdjust (calculateDamage p r) result) := by
    split_ifs
    · exact jsFloor_nonneg (by positivity)
    · exact h1
  split_ifs with hins htir htir
  · exact jsFloor_nonneg (by simp [hins] at h2; positivity)
  · simpa [hins] using h2
  · exact jsFloor_nonneg (by simp [hins] at h2; positivity)
  · simpa [hins] using h2

theorem turnStart_preserves_resources (t : Target) (st : BattleCombatants) (r1 r2 : ℚ)
    (h : resourceInv st) : resourceInv (turnStart t st r1 r2).2 := by
  obtain ⟨⟨hv0, hv1⟩, hs0, hs1⟩ := h
  unfold turnStart processTurnStatus updateStatusDurations
  dsimp only
  split_ifs <;> simp_all [resourceInv, vibeInv, stressInv]
  omega

theorem resolvePlayerMove_preserves_resources (st : BattleCombatants) (move : Move)
    (result : RhythmResult) (rVariance rStatus : ℚ) (h : resourceInv st)
    (hp : 0 ≤ move.power) (hr : 0 ≤ rVariance) :
    resourceInv (resolvePlayerMove st move result rVariance rStatus) := by
  obtain ⟨⟨hv0, hv1⟩, hs0, hs1⟩ := h
  have hd : 0 ≤ playerMoveDamage move.power result rVariance st.player.activeStatuses :=
    playerMoveDamage_nonneg hp hr result _
  have hheal : 0 ≤ jsRound
      ((playerMoveDamage move.power result rVariance st.player.activeStatuses : ℚ) * (3/10)) :=
    jsRound_nonneg (by positivity)
  unfold resolvePlayerMove
  dsimp only
  rcases move.statusEffect with _ | eff <;>
    rcases move.selfStatus with _ | self <;>
      dsimp only <;>
        split_ifs <;>
          simp_all [resourceInv, vibeInv, stressInv, applyStatus] <;>
            omega

theorem useItem_preserves_resources (st : BattleCombatants) (inv : Inventory)
    (item : Item) (h : resourceInv st) :
    resourceInv (useItem st inv item).1 := by
  obtain ⟨⟨hv0, hv1⟩, hs0, hs1⟩ := h
  unfold useItem applyItemEffects
  dsimp only
  split_ifs <;>
    simp_all [resourceInv, vibeInv, stressInv] <;>
      omega

theorem enemyTurn_preserves_resources (st : BattleCombatants)
    (rLaugh rDistracted rConfused rVariance : ℚ) (h : resourceInv st)
    (hp : 0 ≤ st.enemy.attackPower) (hr : 0 ≤ rVariance) :
    resourceInv (enemyTurn st rLaugh rDistracted rConfused rVariance).2.1 := by
  have hts := turnStart_preserves_resources .enemy st rLaugh rDistracted h
  have hap : (turnStart .enemy st rLaugh rDistracted).2.enemy.attackPower =
      st.enemy.attackPower := by
    unfold turnStart processTurnStatus updateStatusDurations
    dsimp only
    split_ifs <;> simp
  have hd : 0 ≤ calculateDamage
      (turnStart .enemy st rLaugh rDistracted).2.enemy.attackPower rVariance := by
    rw [hap]; exact calculateDamage_nonneg hp hr
  obtain ⟨⟨hv0, hv1⟩, hs0, hs1⟩ := hts
  unfold enemyTurn
  dsimp only
  split_ifs <;>
    simp_all [resourceInv, vibeInv, stressInv] <;>
      omega

theorem handleVictoryUpdate_preserves_vibe (m : Memory) (vibeReward xpReward : ℤ)
    (h : vibeInv m) (hvr : 0 ≤ vibeReward) :
    vibeInv (handleVictoryUpdate m vibeReward xpReward) := by
  obtain ⟨hv0, hv1⟩ := h
  unfold handleVictoryUpdate
  dsimp only
  split_ifs <;>
    simp_all [vibeInv] <;>
      omega

theorem handleDefeatUpdate_preserves_vibe (m : Memory) (h : vibeInv m) :
    vibeInv (handleDefeatUpdate m) := by
  obtain ⟨hv0, hv1⟩ := h
  have hmax : (0 : ℚ) ≤ (m.maxVibe : ℚ) := by exact_mod_cast le_trans hv0 hv1
  unfold handleDefeatUpdate vibeInv
  dsimp only
  constructor
  · exact jsFloor_nonneg (by linarith)
  · have : jsFloor ((m.maxVibe : ℚ) / 2) ≤ jsFloor ((m.maxVibe : ℚ)) :=
      jsFloor_mono (by linarith)
    simpa [jsFloor] using this

/-- C4: every resolution step of the battle keeps the player's vibe in
`[0, maxVibe]` and the enemy's stress in `[0, maxStress]`: the player's
move (damage, statuses and heal), item use, the full enemy turn (decay,
passive heal, confused gift, attack), the player-side turn start, the
victory reward with level-up, and the defeat restore. Damage draws and
powers are nonnegative, as produced by `calculateDamage` on the catalog's
nonnegative powers. -/
theorem resolution_keeps_resources_clamped :
    (∀ (st : BattleCombatants) (move : Move) (result : RhythmResult)
       (rVariance rStatus : ℚ), resourceInv st → 0 ≤ move.power → 0 ≤ rVariance →
       resourceInv (resolvePlayerMove st move result rVariance rStatus)) ∧
    (∀ (st : BattleCombatants) (inv : Inventory) (item : Item), resourceInv st →
       resourceInv (useItem st inv item).1) ∧
    (∀ (st : BattleCombatants) (rLaugh rDistracted rConfused rVariance : ℚ),
       resourceInv st → 0 ≤ st.enemy.attackPower → 0 ≤ rVariance →
       resourceInv (enemyTurn st rLaugh rDistracted rConfused rVariance).2.1) ∧
    (∀ (st : BattleCombatants) (rLaugh rDistracted : ℚ), resourceInv st →
       resourceInv (turnStart .player st rLaugh rDistracted).2) ∧
    (∀ (m : Memory) (vibeReward xpReward : ℤ), vibeInv m → 0 ≤ vibeReward →
       vibeInv (handleVictoryUpdate m vibeReward xpReward)) ∧
    (∀ m : Memory, vibeInv m → vibeInv (handleDefeatUpdate m)) :=
  ⟨fun st move result rV rS h hp hr =>
      resolvePlayerMove_preserves_resources st move result rV rS h hp hr,
   fun st inv item h => useItem_preserves_resources st inv item h,
   fun st r1 r2 rc rv h hp hr => enemyTurn_preserves_resources st r1 r2 rc rv h hp hr,
   fun st r1 r2 h => turnStart_preserves_resources .player st r1 r2 h,
   fun m vr xr h hvr => handleVictoryUpdate_preserves_vibe m vr xr h hvr,
   fun m h => handleDefeatUpdate_preserves_vibe m h⟩

/-- A concrete mid-battle state for the C4 witness. -/
def probeBattle : BattleCombatants :=
  { player := { xpProbeMemory with activeStatuses := probeStatuses },
    enemy := { createEnemyInstance "workStress" with currentStress := 30 } }

/-- Witness for C4 at a concrete state, a concrete move (Warm Hug, power
15), the seed item, and concrete draws. -/
theorem resolution_keeps_resources_clamped_witness :
    resourceInv (resolvePlayerMove probeBattle
      { id := "hug", name := "Warm Hug", power := 15, type := .comfort,
        statusEffect := some .BLUSHING, statusChance := some (3/10) }
      RhythmResult.GOOD (1/2) (1/2)) ∧
    resourceInv (useItem probeBattle [("seed_rose", 2)]
      { id := "seed_rose", name := "Rose Seeds", type := .seed, value := 0,
        plantId := some "rose" }).1 ∧
    resourceInv (enemyTurn probeBattle 1 1 1 (1/2)).2.1 ∧
    resourceInv (turnStart .player probeBattle 1 1).2 ∧
    vibeInv (handleVictoryUpdate xpProbeMemory 10 30) ∧
    vibeInv (handleDefeatUpdate xpProbeMemory) := by
  refine ⟨?_, ?_, ?_, ?_, ?_, ?_⟩
  · exact resolution_keeps_resources_clamped.1 probeBattle _ RhythmResult.GOOD (1/2) (1/2)
      (by decide) (by norm_num) (by norm_num)
  · exact resolution_keeps_resources_clamped.2.1 probeBattle _ _ (by decide)
  · exact resolution_keeps_resources_clamped.2.2.1 probeBattle 1 1 1 (1/2)
      (by decide) (by norm_num [probeBattle, createEnemyInstance, STRESS_ENEMIES,
        workStressTemplate]) (by norm_num)
  · exact resolution_keeps_resources_clamped.2.2.2.1 probeBattle 1 1 (by decide)
  · exact resolution_keeps_resources_clamped.2.2.2.2.1 xpProbeMemory 10 30
      (by decide) (by decide)
  · exact resolution_keeps_resources_clamped.2.2.2.2.2 xpProbeMemory (by decide)

-- ============================================================================
-- C5: turn-start status processing order
-- ============================================================================

@[simp] theorem getStatuses_setStatuses_same (st : BattleCombatants) (t : Target)
    (l : List ActiveStatus) : getStatuses (setStatuses st t l) t = l := by
  cases t <;> rfl

/-- C5, amended: at the start of a combatant's turn the statuses are first
decayed (decrement, drop the ones reaching zero), then the skip draws are
made against the still-active skip statuses (LAUGHING at 0.5, then
DISTRACTED at 0.3); a skipped turn performs no passive heal. Only when the
combatant is the *player* does an active PROUD status then restore 5 vibe
capped at max; the enemy never receives the passive heal, and the enemy's
turn start never changes either resource pool. -/
theorem turnStart_decay_skip_heal (t : Target) (st : BattleCombatants) (r1 r2 : ℚ) :
    (getStatuses (turnStart t st r1 r2).2 t = decayStatuses (getStatuses st t)) ∧
    ((turnStart t st r1 r2).1 = false ↔
      ((hasStatus (decayStatuses (getStatuses st t)) .LAUGHING = true ∧ r1 < 5/10) ∨
       (hasStatus (decayStatuses (getStatuses st t)) .DISTRACTED = true ∧ r2 < 3/10))) ∧
    ((turnStart t st r1 r2).1 = false →
      (turnStart t st r1 r2).2.player.currentVibe = st.player.currentVibe ∧
      (turnStart t st r1 r2).2.enemy.currentStress = st.enemy.currentStress) ∧
    ((turnStart t st r1 r2).1 = true → t = .player →
      hasStatus (decayStatuses (getStatuses st t)) .PROUD = true →
      (turnStart t st r1 r2).2.player.currentVibe =
        min st.player.maxVibe (st.player.currentVibe + 5)) ∧
    (t = .enemy →
      (turnStart t st r1 r2).2.player.currentVibe = st.player.currentVibe ∧
      (turnStart t st r1 r2).2.enemy.currentStress = st.enemy.currentStress) := by
  cases t <;>
    · unfold turnStart processTurnStatus updateStatusDurations
      dsimp only
      split_ifs <;>
        simp_all [getStatuses, setStatuses]

/-- A concrete battle state whose enemy holds an active PROUD status. -/
def probeEnemyProudBattle : BattleCombatants :=
  { player := xpProbeMemory,
    enemy :=
      { createEnemyInstance "workStress" with
          currentStress := 30
          activeStatuses := [{ id := .PROUD, duration := 5 }] } }

/-- C5 is false as stated for the enemy: an enemy holding PROUD (still
active after decay), with no skip drawn, proceeds without any restoration —
its stress pool is unchanged — because the passive heal in
`processTurnStatus` is guarded by `target === 'player'`. -/
theorem enemy_passive_heal_missing :
    (turnStart .enemy probeEnemyProudBattle 1 1).1 = true ∧
    hasStatus (getStatuses (turnStart .enemy probeEnemyProudBattle 1 1).2 .enemy)
      .PROUD = true ∧
    (turnStart .enemy probeEnemyProudBattle 1 1).2.enemy.currentStress =
      probeEnemyProudBattle.enemy.currentStress := by
  norm_num [turnStart, processTurnStatus, updateStatusDurations, decayStatuses,
    getStatuses, setStatuses, hasStatus, probeEnemyProudBattle,
    createEnemyInstance, STRESS_ENEMIES, workStressTemplate, List.lookup]
  simp

/-- Witness for C5's amended theorem at the concrete PROUD-enemy state. -/
theorem turnStart_decay_skip_heal_witness :
    (getStatuses (turnStart .enemy probeEnemyProudBattle 1 1).2 .enemy =
      decayStatuses (getStatuses probeEnemyProudBattle .enemy)) ∧
    ((turnStart .enemy probeEnemyProudBattle 1 1).2.player.currentVibe =
      probeEnemyProudBattle.player.currentVibe ∧
     (turnStart .enemy probeEnemyProudBattle 1 1).2.enemy.currentStress =
      probeEnemyProudBattle.enemy.currentStress) :=
  ⟨(turnStart_decay_skip_heal .enemy probeEnemyProudBattle 1 1).1,
   (turnStart_decay_skip_heal .enemy probeEnemyProudBattle 1 1).2.2.2.2 rfl⟩

-- ============================================================================
-- C6: the INSPIRED power multiplier
-- ============================================================================

@[simp] theorem setStatuses_enemy_player (st : BattleCombatants) (l : List ActiveStatus) :
    (setStatuses st .enemy l).player = st.player := rfl

@[simp] theorem setStatuses_player_enemy (st : BattleCombatants) (l : List ActiveStatus) :
    (setStatuses st .player l).enemy = st.enemy := rfl

@[simp] theorem setStatuses_player_statuses (st : BattleCombatants) (l : List ActiveStatus) :
    (setStatuses st .player l).player.activeStatuses = l := rfl

theorem hasStatus_applyStatusList_of_hasStatus {l : List ActiveStatus}
    {sid : StatusType} (sid2 : StatusType) (h : hasStatus l sid = true) :
    hasStatus (applyStatusList l sid2) sid = true := by
  induction l with
  | nil => simp [hasStatus] at h
  | cons s rest ih =>
    by_cases hs : s.id = sid2
    · simp only [applyStatusList, if_pos hs]
      simpa [hasStatus] using h
    · simp only [applyStatusList, if_neg hs]
      simp only [hasStatus, List.any_cons, Bool.or_eq_true] at h ⊢
      rcases h with h | h
      · exact Or.inl h
      · exact Or.inr (ih h)

theorem resolvePlayerMove_player_statuses (st : BattleCombatants) (move : Move)
    (result : RhythmResult) (rVariance rStatus : ℚ) :
    (resolvePlayerMove st move result rVariance rStatus).player.activeStatuses =
      match move.selfStatus with
      | some self => applyStatusList st.player.activeStatuses self
      | none => st.player.activeStatuses := by
  unfold resolvePlayerMove
  dsimp only
  rcases move.statusEffect with _ | eff <;>
    rcases move.selfStatus with _ | self <;>
      dsimp only <;>
        split_ifs <;>
          simp [applyStatus, setStatuses, getStatuses]

theorem turnStart_enemy_attackPower (t : Target) (st : BattleCombatants) (r1 r2 : ℚ) :
    (turnStart t st r1 r2).2.enemy.attackPower = st.enemy.attackPower := by
  unfold turnStart processTurnStatus updateStatusDurations
  dsimp only
  split_ifs <;> simp

/-- C6, amended: when the player resolves a move while holding an
INSPIRED status (and no TIRED reduction), the computed amount is exactly
twice the rhythm-adjusted base damage, and the INSPIRED entry survives the
whole resolution (statuses are only ever applied or refreshed by it, never
consumed). The opponent's fixed attack, by contrast, applies no status
multiplier at all: whenever the enemy turn resolves into an attack, the
amount is exactly `calculateDamage(attackPower)`, INSPIRED or not. -/
theorem inspired_double_and_persist :
    (∀ (p : ℚ) (result : RhythmResult) (r : ℚ) (l : List ActiveStatus),
       hasStatus l .INSPIRED = true → hasStatus l .TIRED = false →
       playerMoveDamage p result r l = 2 * rhythmAdjust (calculateDamage p r) result) ∧
    (∀ (st : BattleCombatants) (move : Move) (result : RhythmResult) (rV rS : ℚ),
       hasStatus st.player.activeStatuses .INSPIRED = true →
       hasStatus (resolvePlayerMove st move result rV rS).player.activeStatuses
         .INSPIRED = true) ∧
    (∀ (st : BattleCombatants) (r1 r2 rc rv : ℚ) (d : ℤ),
       (enemyTurn st r1 r2 rc rv).1 = .attacked d →
       d = calculateDamage st.enemy.attackPower rv) := by
  refine ⟨?_, ?_, ?_⟩
  · intro p result r l hins htir
    unfold playerMoveDamage
    dsimp only
    rw [if_pos hins, if_neg (by simp [htir])]
    have : ((rhythmAdjust (calculateDamage p r) result : ℤ) : ℚ) * 2 =
        ((2 * rhythmAdjust (calculateDamage p r) result : ℤ) : ℚ) := by
      push_cast
      ring
    rw [this]
    exact Int.floor_intCast _
  · intro st move result rV rS h
    rw [resolvePlayerMove_player_statuses]
    rcases move.selfStatus with _ | self
    · exact h
    · exact hasStatus_applyStatusList_of_hasStatus self h
  · intro st r1 r2 rc rv d
    unfold enemyTurn
    rcases hts : turnStart .enemy st r1 r2 with ⟨proceed, st'⟩
    have hap : st'.enemy.attackPower = st.enemy.attackPower := by
      have := turnStart_enemy_attackPower .enemy st r1 r2
      rw [hts] at this
      exact this
    dsimp only
    cases proceed <;> split_ifs <;> intro h <;> simp_all

/-- A concrete battle state whose enemy holds an active INSPIRED status. -/
def probeInspiredEnemyBattle : BattleCombatants :=
  { player := xpProbeMemory,
    enemy :=
      { createEnemyInstance "workStress" with
          currentStress := 30
          activeStatuses := [{ id := .INSPIRED, duration := 5 }] } }

/-- C6 is false as stated for the opponent: an INSPIRED enemy (attack power
8, variance draw 0) deals `round(8 * 0.8) = 6`, not the doubled 12 the
claim requires — `enemyTurn` never consults the attacker's statuses when
computing the amount. The player's vibe drops from 50 to 44, not to 38. -/
theorem enemy_inspired_not_doubled :
    hasStatus probeInspiredEnemyBattle.enemy.activeStatuses .INSPIRED = true ∧
    (enemyTurn probeInspiredEnemyBattle 1 1 1 0).1 = .attacked 6 ∧
    (enemyTurn probeInspiredEnemyBattle 1 1 1 0).2.1.player.currentVibe = 44 ∧
    ¬((enemyTurn probeInspiredEnemyBattle 1 1 1 0).2.1.player.currentVibe =
        50 - 2 * 6) := by
  have hd : calculateDamage (8 : ℚ) 0 = 6 := by norm_num [calculateDamage, jsRound]
  refine ⟨by decide, ?_⟩
  norm_num [enemyTurn, turnStart, processTurnStatus, updateStatusDurations,
    decayStatuses, getStatuses, setStatuses, hasStatus, probeInspiredEnemyBattle,
    createEnemyInstance, STRESS_ENEMIES, workStressTemplate, List.lookup,
    xpProbeMemory, hd]
  simp [hd]

/-- A concrete battle state whose player holds an active INSPIRED status. -/
def probeInspiredPlayerBattle : BattleCombatants :=
  { player := { xpProbeMemory with activeStatuses := [{ id := .INSPIRED, duration := 5 }] },
    enemy := { createEnemyInstance "workStress" with currentStress := 30 } }

/-- Witness for C6's amended theorem: the doubling formula for an INSPIRED
player, persistence through a full Sweet Kiss resolution, and the enemy's
attack amount at the INSPIRED-enemy state. -/
theorem inspired_double_and_persist_witness :
    (playerMoveDamage 30 RhythmResult.GOOD (1/2)
       [{ id := .INSPIRED, duration := 5 }] =
     2 * rhythmAdjust (calculateDamage 30 (1/2)) RhythmResult.GOOD) ∧
    hasStatus (resolvePlayerMove probeInspiredPlayerBattle
      { id := "kiss", name := "Sweet Kiss", power := 30, type := .comfort,
        statusEffect := some .INSPIRED, selfStatus := some .INSPIRED,
        statusChance := some (5/10) }
      RhythmResult.GOOD (1/2) (1/2)).player.activeStatuses .INSPIRED = true ∧
    (6 : ℤ) = calculateDamage probeInspiredEnemyBattle.enemy.attackPower 0 := by
  refine ⟨?_, ?_, ?_⟩
  · exact inspired_double_and_persist.1 30 RhythmResult.GOOD (1/2)
      [{ id := .INSPIRED, duration := 5 }] (by decide) (by decide)
  · exact inspired_double_and_persist.2.1 probeInspiredPlayerBattle _
      RhythmResult.GOOD (1/2) (1/2) (by decide)
  · refine inspired_double_and_persist.2.2 probeInspiredEnemyBattle 1 1 1 0 6 ?_
    have hd : calculateDamage (8 : ℚ) 0 = 6 := by norm_num [calculateDamage, jsRound]
    norm_num [enemyTurn, turnStart, processTurnStatus, updateStatusDurations,
      decayStatuses, getStatuses, setStatuses, hasStatus, probeInspiredEnemyBattle,
      createEnemyInstance, STRESS_ENEMIES, workStressTemplate, List.lookup,
      xpProbeMemory, hd]
    simp [hd]

-- ============================================================================
-- C7: the RUN attempt
-- ============================================================================

/-- A concrete battle state whose enemy holds an active LAUGHING status. -/
def probeLaughingEnemyBattle : BattleCombatants :=
  { player := xpProbeMemory,
    enemy :=
      { createEnemyInstance "workStress" with
          currentStress := 30
          activeStatuses := [{ id := .LAUGHING, duration := 5 }] } }

/-- C7, amended: the RUN draw succeeds against the fixed 0.7, entering
RUN_AWAY with both combatants untouched; on failure the opponent takes its
*normal* enemy turn on the unchanged state — including the status-skip and
confusion gating, which is *not* bypassed: a successful LAUGHING draw on
the decayed statuses skips the enemy's action entirely, leaving the
player's pool unchanged — and when the attack does resolve and the player
survives, control returns to the player's turn. -/
theorem attemptRun_resolution (st : BattleCombatants) (rRun r1 r2 rc rv : ℚ) :
    (rRun < 7/10 →
      attemptRun st rRun r1 r2 rc rv = (.skipped, st, .RUN_AWAY)) ∧
    (¬(rRun < 7/10) →
      attemptRun st rRun r1 r2 rc rv = enemyTurn st r1 r2 rc rv ∧
      ((hasStatus (decayStatuses st.enemy.activeStatuses) .LAUGHING = true ∧
          r1 < 5/10) →
        (enemyTurn st r1 r2 rc rv).1 = .skipped ∧
        (enemyTurn st r1 r2 rc rv).2.1.player.currentVibe =
          st.player.currentVibe ∧
        (enemyTurn st r1 r2 rc rv).2.2 = .PLAYER_TURN) ∧
      (∀ d : ℤ, (enemyTurn st r1 r2 rc rv).1 = .attacked d →
        0 < (enemyTurn st r1 r2 rc rv).2.1.player.currentVibe →
        (enemyTurn st r1 r2 rc rv).2.2 = .PLAYER_TURN)) := by
  constructor
  · intro h
    unfold attemptRun
    rw [if_pos h]
  · intro h
    refine ⟨by unfold attemptRun; rw [if_neg h], ?_, ?_⟩
    · rintro ⟨hl, hr1⟩
      have hskip : turnStart .enemy st r1 r2 = (false, updateStatusDurations .enemy st) := by
        unfold turnStart processTurnStatus
        dsimp only
        rw [if_pos]
        constructor
        · simpa [updateStatusDurations, getStatuses_setStatuses_same] using hl
        · exact hr1
      unfold enemyTurn
      rw [hskip]
      simp [updateStatusDurations]
    · intro d
      unfold enemyTurn
      rcases hts : turnStart .enemy st r1 r2 with ⟨proceed, st'⟩
      dsimp only
      cases proceed <;> split_ifs <;> intro hd hv <;> simp_all
      omega

/-- C7 is false as stated: with the run draw forced to fail (0.9 ≥ 0.7) and
the enemy LAUGHING with a successful skip draw, the opponent does *not* act
— its normal action gating runs and skips the turn (outcome `skipped`, the
player's vibe untouched, control back at the player's turn), contradicting
the claimed bypass of the status-skip checks. -/
theorem run_failure_gating_not_bypassed :
    (attemptRun probeLaughingEnemyBattle (9/10) 0 1 1 (1/2)).1 =
      EnemyTurnOutcome.skipped ∧
    (attemptRun probeLaughingEnemyBattle (9/10) 0 1 1 (1/2)).2.1.player.currentVibe =
      probeLaughingEnemyBattle.player.currentVibe ∧
    (attemptRun probeLaughingEnemyBattle (9/10) 0 1 1 (1/2)).2.2 =
      Phase.PLAYER_TURN := by
  norm_num [attemptRun, enemyTurn, turnStart, processTurnStatus,
    updateStatusDurations, decayStatuses, getStatuses, setStatuses, hasStatus,
    probeLaughingEnemyBattle, createEnemyInstance, STRESS_ENEMIES,
    workStressTemplate, List.lookup, xpProbeMemory]

/-- Witness for C7's amended theorem: a successful run at draw 0 leaves the
state untouched, and a failed run at draw 0.9 against the LAUGHING enemy
resolves into a skipped (not bypassed) enemy turn. -/
theorem attemptRun_resolution_witness :
    attemptRun probeBattle 0 1 1 1 (1/2) =
      (EnemyTurnOutcome.skipped, probeBattle, Phase.RUN_AWAY) ∧
    ((enemyTurn probeLaughingEnemyBattle 0 1 1 (1/2)).1 =
       EnemyTurnOutcome.skipped ∧
     (enemyTurn probeLaughingEnemyBattle 0 1 1 (1/2)).2.1.player.currentVibe =
       probeLaughingEnemyBattle.player.currentVibe ∧
     (enemyTurn probeLaughingEnemyBattle 0 1 1 (1/2)).2.2 = Phase.PLAYER_TURN) :=
  ⟨(attemptRun_resolution probeBattle 0 1 1 1 (1/2)).1 (by norm_num),
   ((attemptRun_resolution probeLaughingEnemyBattle (9/10) 0 1 1 (1/2)).2
      (by norm_num)).2.1 ⟨by decide, by norm_num⟩⟩

-- ============================================================================
-- C8: memory drop selection and collection
-- ============================================================================

theorem collectMemory_nodup {gs : GameStateM} {id : String}
    (hnd : gs.collectedMemories.Nodup) :
    (collectMemory gs id).1.collectedMemories.Nodup := by
  unfold collectMemory
  split_ifs with h
  · exact hnd
  · simp only
    refine List.nodup_append.mpr ⟨hnd, List.nodup_singleton _, ?_⟩
    intro a ha hb
    rw [List.mem_singleton] at hb
    subst hb
    simp only [hasCollected] at h
    simp at h
    exact h ha

theorem tryDropMemory_some_mem {gs : GameStateM} {r : ℚ} (h0 : 0 ≤ r) (h1 : r < 1)
    {id : String} (h : (tryDropMemory gs r).2 = some id) :
    id ∈ AllMemoryIds.filter (fun i => !hasCollected gs i) := by
  unfold tryDropMemory at h
  dsimp only at h
  split_ifs at h with hne
  · have hlen : 0 < (AllMemoryIds.filter (fun i => !hasCollected gs i)).length :=
      Nat.pos_of_ne_zero hne
    have hcast : (0 : ℚ) <
        ((AllMemoryIds.filter (fun i => !hasCollected gs i)).length : ℚ) := by
      exact_mod_cast hlen
    have hfl0 : 0 ≤ jsFloor
        (r * ((AllMemoryIds.filter (fun i => !hasCollected gs i)).length : ℚ)) :=
      jsFloor_nonneg (by positivity)
    have hflt : jsFloor
        (r * ((AllMemoryIds.filter (fun i => !hasCollected gs i)).length : ℚ)) <
        ((AllMemoryIds.filter (fun i => !hasCollected gs i)).length : ℤ) := by
      refine Int.floor_lt.mpr ?_
      push_cast
      nlinarith
    have hidx : (jsFloor
        (r * ((AllMemoryIds.filter (fun i => !hasCollected gs i)).length : ℚ))).toNat <
        (AllMemoryIds.filter (fun i => !hasCollected gs i)).length := by
      omega
    rw [Option.some_inj] at h
    rw [← h, List.getD_eq_getElem _ _ hidx]
    exact List.getElem_mem hidx

/-- C8: the victory drop draws only from the uncollected difference of the
catalog — a dropped id is never already collected; with every catalog id
collected the drop yields nothing and the state is unchanged; collecting an
already-collected id is a no-op returning failure; the collected list stays
duplicate-free; and when the collected set equals the full catalog the
`isReadyForFinale` condition is signalled by `checkEndgame`. -/
theorem drop_selection_contract (gs : GameStateM) (r : ℚ) (h0 : 0 ≤ r) (h1 : r < 1) :
    (∀ id : String, (tryDropMemory gs r).2 = some id →
       hasCollected gs id = false ∧ id ∈ AllMemoryIds) ∧
    ((∀ id ∈ AllMemoryIds, hasCollected gs id = true) →
       tryDropMemory gs r = (gs, none)) ∧
    (∀ (gs2 : GameStateM) (id : String), hasCollected gs2 id = true →
       collectMemory gs2 id = (gs2, false)) ∧
    (gs.collectedMemories.Nodup → (tryDropMemory gs r).1.collectedMemories.Nodup) ∧
    (∀ gs3 : GameStateM, gs3.collectedMemories.Nodup →
       (∀ id : String, id ∈ gs3.collectedMemories ↔ id ∈ AllMemoryIds) →
       (checkEndgame gs3).isReadyForFinale = true) := by
  refine ⟨?_, ?_, ?_, ?_, ?_⟩
  · intro id h
    have hmem := tryDropMemory_some_mem h0 h1 h
    rw [List.mem_filter] at hmem
    obtain ⟨hall, hcol⟩ := hmem
    exact ⟨by simpa using hcol, hall⟩
  · intro hall
    have hnil : AllMemoryIds.filter (fun i => !hasCollected gs i) = [] := by
      rw [List.filter_eq_nil_iff]
      intro a ha
      simp [hall a ha]
    unfold tryDropMemory
    rw [hnil]
    simp
  · intro gs2 id h
    unfold collectMemory
    rw [if_pos h]
  · intro hnd
    unfold tryDropMemory
    dsimp only
    split_ifs
    · exact collectMemory_nodup hnd
    · exact hnd
  · intro gs3 hnd hiff
    have hfs : gs3.collectedMemories.toFinset = AllMemoryIds.toFinset := by
      apply Finset.ext
      intro a
      simp [List.mem_toFinset, hiff a]
    have hlen : gs3.collectedMemories.length = AllMemoryIds.length := by
      rw [← List.toFinset_card_of_nodup hnd,
        ← List.toFinset_card_of_nodup (by decide : AllMemoryIds.Nodup), hfs]
    unfold checkEndgame getCollectedCount
    rw [if_pos hlen]

/-- A persistent state with one collected memory. -/
def probeGameState : GameStateM :=
  { collectedMemories := ["paris_trip"], isReadyForFinale := false }

/-- A persistent state with the whole catalog collected. -/
def fullGameState : GameStateM :=
  { collectedMemories := AllMemoryIds, isReadyForFinale := false }

/-- Witness for C8 at concrete states: the draw at 1/2 from the
five-element uncollected difference picks a fresh catalog id; a drop on the
full state is a no-op; re-collecting is rejected; nodup is kept; the full
state signals the finale. -/
theorem drop_selection_contract_witness :
    (hasCollected probeGameState "stargazing" = false ∧
     "stargazing" ∈ AllMemoryIds) ∧
    tryDropMemory fullGameState (1/2) = (fullGameState, none) ∧
    collectMemory probeGameState "paris_trip" = (probeGameState, false) ∧
    (tryDropMemory probeGameState (1/2)).1.collectedMemories.Nodup ∧
    (checkEndgame fullGameState).isReadyForFinale = true := by
  refine ⟨?_, ?_, ?_, ?_, ?_⟩
  · refine (drop_selection_contract probeGameState (1/2) (by norm_num)
      (by norm_num)).1 "stargazing" ?_
    have hfilter : AllMemoryIds.filter (fun i => !hasCollected probeGameState i) =
        ["first_kiss", "pizza_night", "stargazing", "rainy_day", "movie_marathon"] := by
      decide
    unfold tryDropMemory
    rw [hfilter]
    have h2 : jsFloor ((1/2 : ℚ) *
        ((["first_kiss", "pizza_night", "stargazing", "rainy_day",
           "movie_marathon"] : List String).length : ℚ)) = 2 := by
      norm_num [jsFloor]
    dsimp only
    rw [h2]
    simp
  · exact (drop_selection_contract fullGameState (1/2) (by norm_num)
      (by norm_num)).2.1 (by decide)
  · exact (drop_selection_contract probeGameState (1/2) (by norm_num)
      (by norm_num)).2.2.1 probeGameState "paris_trip" (by decide)
  · exact (drop_selection_contract probeGameState (1/2) (by norm_num)
      (by norm_num)).2.2.2.1 (by decide)
  · exact (drop_selection_contract probeGameState (1/2) (by norm_num)
      (by norm_num)).2.2.2.2 fullGameState (by decide) (fun id => Iff.rfl)

-- ============================================================================
-- C9: missing enemy id falls back to workStress
-- ============================================================================

/-- C9: instantiating an opponent whose id is missing from
`STRESS_ENEMIES` does not fail: it yields exactly the `workStress` fallback
instance (the same instance the known id "workStress" produces), a
well-formed enemy starting at full stress with no statuses. -/
theorem createEnemyInstance_missing_id_fallback (enemyId : String)
    (h : STRESS_ENEMIES.lookup enemyId = none) :
    createEnemyInstance enemyId = createEnemyInstance "workStress" ∧
    (createEnemyInstance enemyId).id = "workStress" ∧
    (createEnemyInstance enemyId).currentStress =
      (createEnemyInstance enemyId).maxStress ∧
    (createEnemyInstance enemyId).activeStatuses = [] := by
  have hws : STRESS_ENEMIES.lookup "workStress" = some workStressTemplate := by
    decide
  unfold createEnemyInstance
  rw [h, hws]
  simp [workStressTemplate]

/-- Witness for C9 at the concrete missing id "missingEnemy". -/
theorem createEnemyInstance_missing_id_fallback_witness :
    createEnemyInstance "missingEnemy" = createEnemyInstance "workStress" ∧
    (createEnemyInstance "missingEnemy").id = "workStress" ∧
    (createEnemyInstance "missingEnemy").currentStress =
      (createEnemyInstance "missingEnemy").maxStress ∧
    (createEnemyInstance "missingEnemy").activeStatuses = [] :=
  createEnemyInstance_missing_id_fallback "missingEnemy" (by decide)

-- ============================================================================
-- C10: battle items of other types
-- ============================================================================

theorem lookup_filter_ne (inv : List (String × ℕ)) (id : String) :
    (inv.filter (fun p => p.1 ≠ id)).lookup id = none := by
  rw [List.lookup_eq_none_iff]
  intro q hq
  rw [List.mem_filter] at hq
  have hne : q.1 ≠ id := by simpa using hq.2
  simp only [bne_iff_ne, ne_eq]
  exact fun hb => hne hb.symm

theorem lookup_map_update (inv : List (String × ℕ)) (id : String) (n : ℕ) {c : ℕ}
    (h : inv.lookup id = some c) :
    (inv.map (fun p => if p.1 = id then (p.1, n) else p)).lookup id = some n := by
  induction inv with
  | nil => simp at h
  | cons p rest ih =>
    obtain ⟨k, v⟩ := p
    by_cases hp : k = id
    · subst hp
      simp
    · have hbeq : (id == k) = false := beq_false_of_ne (fun hb => hp hb.symm)
      simp only [List.lookup_cons, hbeq] at h
      simp only [List.map_cons, if_neg hp, List.lookup_cons, hbeq]
      exact ih h

theorem invUseItem_consumes {inv : Inventory} {id : String}
    (h : 1 ≤ invCount inv id) :
    (invUseItem inv id).2 = true ∧
    invCount (invUseItem inv id).1 id = invCount inv id - 1 := by
  rcases hl : ((inv : List (String × ℕ)).lookup id) with _ | c
  · exfalso
    simp [invCount, hl] at h
  · have hc : invCount inv id = c := by simp [invCount, hl]
    have hc1 : 1 ≤ c := hc ▸ h
    unfold invUseItem
    rw [hl]
    dsimp only [Option.getD_some]
    rw [if_neg (by omega)]
    by_cases hz : c - 1 = 0
    · rw [if_pos hz]
      refine ⟨rfl, ?_⟩
      dsimp only
      unfold invCount
      rw [lookup_filter_ne, hl]
      dsimp only [Option.getD_some, Option.getD_none]
      omega
    · rw [if_neg hz]
      refine ⟨rfl, ?_⟩
      dsimp only
      unfold invCount
      rw [lookup_map_update _ _ _ hl, hl]
      rfl

/-- C10: using a battle item whose type is neither heal, comfort nor
special (the catalog's seed and resource items) still consumes exactly one
unit from the inventory and passes the turn to the enemy (the battle being
live, enemy stress positive), while leaving the whole battle state — in
particular the player's vibe and the enemy's stress — unchanged. -/
theorem useItem_other_types_noop (st : BattleCombatants) (inv : Inventory)
    (item : Item) (h1 : item.type ≠ .heal) (h2 : item.type ≠ .comfort)
    (h3 : item.type ≠ .special) (hheld : 1 ≤ invCount inv item.id)
    (hlive : 0 < st.enemy.currentStress) :
    (useItem st inv item).1 = st ∧
    (useItem st inv item).1.player.currentVibe = st.player.currentVibe ∧
    (useItem st inv item).1.enemy.currentStress = st.enemy.currentStress ∧
    invCount (useItem st inv item).2.1 item.id = invCount inv item.id - 1 ∧
    (useItem st inv item).2.2 = some Phase.ENEMY_TURN := by
  obtain ⟨hok, hcount⟩ := invUseItem_consumes hheld
  have heff : applyItemEffects st item = st := by
    unfold applyItemEffects
    rw [if_neg (not_or.mpr ⟨h1, h3⟩), if_neg (not_or.mpr ⟨h2, h3⟩)]
  unfold useItem
  rcases hu : invUseItem inv item.id with ⟨inv', ok⟩
  rw [hu] at hok hcount
  dsimp only at hok hcount ⊢
  subst hok
  rw [if_pos rfl, heff, if_neg (by omega)]
  exact ⟨rfl, rfl, rfl, hcount, rfl⟩

/-- Witness for C10: using Rose Seeds (type seed) from an inventory holding
two of them, in the live probe battle. -/
theorem useItem_other_types_noop_witness :
    (useItem probeBattle [("seed_rose", 2)]
       { id := "seed_rose", name := "Rose Seeds", type := .seed, value := 0,
         plantId := some "rose" }).1 = probeBattle ∧
    (useItem probeBattle [("seed_rose", 2)]
       { id := "seed_rose", name := "Rose Seeds", type := .seed, value := 0,
         plantId := some "rose" }).1.player.currentVibe =
      probeBattle.player.currentVibe ∧
    (useItem probeBattle [("seed_rose", 2)]
       { id := "seed_rose", name := "Rose Seeds", type := .seed, value := 0,
         plantId := some "rose" }).1.enemy.currentStress =
      probeBattle.enemy.currentStress ∧
    invCount (useItem probeBattle [("seed_rose", 2)]
       { id := "seed_rose", name := "Rose Seeds", type := .seed, value := 0,
         plantId := some "rose" }).2.1 "seed_rose" =
      invCount [("seed_rose", 2)] "seed_rose" - 1 ∧
    (useItem probeBattle [("seed_rose", 2)]
       { id := "seed_rose", name := "Rose Seeds", type := .seed, value := 0,
         plantId := some "rose" }).2.2 = some Phase.ENEMY_TURN :=
  useItem_other_types_noop probeBattle [("seed_rose", 2)] _
    (by decide) (by decide) (by decide) (by decide) (by decide)

end Nancymon
